import Mathlib

/-!
Shallow embedding of the config/artifact manager in
src/python-example/utils/config_manager.py.

Modelling conventions.

A filesystem path is a list of path components.  The process-wide root
(the module global new_path, read once from the NEW_DATA_PATH environment
variable) is a single opaque component, or none when the variable is
unset (os.getenv returns None in that case).  os.path.join(None, x)
raises TypeError in Python, as does joining a non-string component; this
is the joinRoot function below.

A filesystem state (FS) is the set of existing directories plus a finite
map from (directory, file name) to file contents, kept as an association
list so that every operation is executable.  The code checks
os.path.exists on directory paths before creating or listing them and on
file paths before opening them; these two uses are modelled as membership
in FS.dirs and lookup in FS.files respectively.  os.listdir enumerates
the files of a directory (the managed layout keeps no nested
subdirectories inside data/ or figures/).  os.makedirs(p, exist_ok=True)
creates p together with its missing parents and never fails.

External serialisation libraries (pickle, yaml, pandas, matplotlib) are
opaque collaborators: a written file stores the object handed to the
library, and the matching reader returns it.  A matplotlib figure is an
opaque token.  Python values are PyObj; a pandas DataFrame is the framePy
constructor, the only object carrying a to_csv method.

Python exceptions are values of PyError.  Every operation returns an
Except result paired with the filesystem state after the call, so that a
raised exception can still carry the side effects performed before the
raise (for example the directory created by save_data before its format
dispatch).
-/

inductive PyObj where
  | nonePy : PyObj
  | boolPy : Bool → PyObj
  | intPy : Int → PyObj
  | strPy : String → PyObj
  | listPy : List PyObj → PyObj
  | dictPy : List (String × PyObj) → PyObj
  | framePy : List String → List (List PyObj) → PyObj

/-- An opaque matplotlib figure object. -/
structure Fig where
  figId : String

inductive FileContent where
  | yamlFile : PyObj → FileContent
  | pickled : PyObj → FileContent
  | csvFile : PyObj → FileContent
  | figureFile : Fig → String → FileContent

inductive PyError where
  | typeError : PyError
  | keyError : String → PyError
  | valueError : String → PyError
  | fileNotFoundError : String → PyError
  | configurationError : PyError
deriving DecidableEq

structure FS where
  dirs : List (List String)
  files : List ((List String × String) × FileContent)

/-- Lookup in the file map by (directory, file name) key. -/
def lookupA : List ((List String × String) × FileContent) → (List String × String) → Option FileContent
  | [], _ => Option.none
  | e :: rest, q => if e.1 = q then some e.2 else lookupA rest q

def insertDir (ds : List (List String)) (d : List String) : List (List String) :=
  if d ∈ ds then ds else ds ++ [d]

/-- All nonempty component-list prefixes of a path: the chain of parent
directories that os.makedirs creates. -/
def pathInits : List String → List (List String)
  | [] => []
  | c :: rest => [c] :: (pathInits rest).map (fun p => c :: p)

/-- os.makedirs(p, exist_ok=True): create the directory and its missing
parents; never an error. -/
def FS.makedirs (fs : FS) (p : List String) : FS :=
  { fs with dirs := (pathInits p).foldl insertDir fs.dirs }

/-- Whole-file write (open for writing then dump): replaces any previous
content at the same (directory, name) key. -/
def FS.writeFile (fs : FS) (d : List String) (n : String) (c : FileContent) : FS :=
  { fs with files := ((d, n), c) :: fs.files.filter (fun e => !(decide (e.1 = (d, n)))) }

/-- Python str.startswith on the underlying character lists. -/
def pystartswith (s p : String) : Bool :=
  p.data.isPrefixOf s.data

/-- The listdir-and-remove loop of clear_data_and_figure: delete every
file of directory d whose name starts with pre. -/
def clearDir (fs : FS) (d : List String) (pre : String) : FS :=
  { fs with files := fs.files.filter (fun e => !(decide (e.1.1 = d) && pystartswith e.1.2 pre)) }

/-- Association-list lookup for a Python dict with string keys. -/
def lookupKV : List (String × PyObj) → String → Option PyObj
  | [], _ => Option.none
  | e :: rest, q => if e.1 = q then some e.2 else lookupKV rest q

/-- Python subscript d[k]: KeyError when the key is absent. -/
def dictGet (d : List (String × PyObj)) (k : String) : Except PyError PyObj :=
  match lookupKV d k with
  | some v => Except.ok v
  | Option.none => Except.error (PyError.keyError k)

/-- Python d.get(k, default). -/
def dictGetD (d : List (String × PyObj)) (k : String) (dv : PyObj) : PyObj :=
  (lookupKV d k).getD dv

/-- Python str() as used by f-string interpolation.  The container cases
are abbreviated renderings; no caller of this repository interpolates a
container into a file name. -/
def pyToStr : PyObj → String
  | PyObj.strPy s => s
  | PyObj.nonePy => "None"
  | PyObj.boolPy true => "True"
  | PyObj.boolPy false => "False"
  | PyObj.intPy n => toString n
  | PyObj.listPy _ => "[...]"
  | PyObj.dictPy _ => "\x7b...\x7d"
  | PyObj.framePy _ _ => "DataFrame"

/-- hasattr(data, to_csv): only a pandas DataFrame carries it here. -/
def hasToCsv : PyObj → Bool
  | PyObj.framePy _ _ => true
  | _ => false

/-- os.path.join(new_path, folder_name): TypeError when new_path is None
(unset environment variable) or when folder_name is not a string. -/
def joinRoot : Option String → PyObj → Except PyError (List String)
  | Option.none, _ => Except.error PyError.typeError
  | some r, PyObj.strPy s => Except.ok [r, s]
  | some _, _ => Except.error PyError.typeError

/-- Rendering of a component path for exception messages. -/
def pathStr (p : List String) : String :=
  String.intercalate "/" p

/-- load_configs(folder_name, config_suffix): open the config file for
reading (FileNotFoundError when absent) and yaml.safe_load its content. -/
def load_configs (new_path : Option String) (folder_name : String) (config_suffix : String) (fs : FS) : Except PyError PyObj × FS :=
  match new_path with
  | Option.none => (Except.error PyError.typeError, fs)
  | some r =>
    let dir := [r, folder_name]
    let fname := "config_" ++ config_suffix ++ ".yml"
    match lookupA fs.files (dir, fname) with
    | Option.none => (Except.error (PyError.fileNotFoundError (pathStr (dir ++ [fname]))), fs)
    | some (FileContent.yamlFile d) => (Except.ok d, fs)
    | some _ => (Except.error (PyError.valueError "yaml parse error"), fs)

/-- save_configs(folder_name, config, config_suffix): open the config
file for writing (FileNotFoundError when the experiment folder is
missing) and yaml.dump the document with sort_keys=False. -/
def save_configs (new_path : Option String) (folder_name : String) (config : PyObj) (config_suffix : String) (fs : FS) : Except PyError Unit × FS :=
  match new_path with
  | Option.none => (Except.error PyError.typeError, fs)
  | some r =>
    let dir := [r, folder_name]
    let fname := "config_" ++ config_suffix ++ ".yml"
    if dir ∈ fs.dirs then
      (Except.ok (), fs.writeFile dir fname (FileContent.yamlFile config))
    else
      (Except.error (PyError.fileNotFoundError (pathStr (dir ++ [fname]))), fs)

/-- initialise_config(folder_name): create the folder plus its data and
figures subfolders when the folder does not exist; otherwise no action.
The verbose parameter only controls an informational print and is
omitted. -/
def initialise_config (new_path : Option String) (folder_name : String) (fs : FS) : Except PyError Unit × FS :=
  match new_path with
  | Option.none => (Except.error PyError.typeError, fs)
  | some r =>
    let folder_path := [r, folder_name]
    if folder_path ∈ fs.dirs then
      (Except.ok (), fs)
    else
      (Except.ok (), ((fs.makedirs folder_path).makedirs (folder_path ++ ["data"])).makedirs (folder_path ++ ["figures"]))

/-- save_figure(notebook_config, fig, fig_name, fig_format): look up the
folder name (KeyError first), default the version to v1, join the
figures path, lazily create the figures directory, then fig.savefig to
version_name.format. -/
def save_figure (new_path : Option String) (notebook_config : List (String × PyObj)) (fig : Fig) (fig_name : String) (fig_format : String) (fs : FS) : Except PyError Unit × FS :=
  match dictGet notebook_config "name" with
  | Except.error e => (Except.error e, fs)
  | Except.ok folder_name =>
    let config_version := dictGetD notebook_config "version" (PyObj.strPy "v1")
    match joinRoot new_path folder_name with
    | Except.error e => (Except.error e, fs)
    | Except.ok base =>
      let figures_path := base ++ ["figures"]
      let fs1 := if figures_path ∈ fs.dirs then fs else fs.makedirs figures_path
      let fname := pyToStr config_version ++ "_" ++ fig_name ++ "." ++ fig_format
      (Except.ok (), fs1.writeFile figures_path fname (FileContent.figureFile fig fig_format))

/-- save_data(notebook_config, data, data_name, data_format): look up the
folder name (KeyError first), default the version to v1, join the data
path, lazily create the data directory, then dispatch on the format:
pickle.dump for pkl, data.to_csv for csv (ValueError when the object has
no to_csv method), ValueError otherwise.  The directory creation
precedes the dispatch, so a format error leaves the created directory
behind. -/
def save_data (new_path : Option String) (notebook_config : List (String × PyObj)) (data : PyObj) (data_name : String) (data_format : String) (fs : FS) : Except PyError Unit × FS :=
  match dictGet notebook_config "name" with
  | Except.error e => (Except.error e, fs)
  | Except.ok folder_name =>
    let config_version := dictGetD notebook_config "version" (PyObj.strPy "v1")
    match joinRoot new_path folder_name with
    | Except.error e => (Except.error e, fs)
    | Except.ok base =>
      let data_path := base ++ ["data"]
      let fs1 := if data_path ∈ fs.dirs then fs else fs.makedirs data_path
      let fname := pyToStr config_version ++ "_" ++ data_name ++ "." ++ data_format
      if data_format = "pkl" then
        (Except.ok (), fs1.writeFile data_path fname (FileContent.pickled data))
      else if data_format = "csv" then
        if hasToCsv data then
          (Except.ok (), fs1.writeFile data_path fname (FileContent.csvFile data))
        else
          (Except.error (PyError.valueError "Data does not have a to_csv method."), fs1)
      else
        (Except.error (PyError.valueError "Unsupported data format. Use pkl or csv."), fs1)

/-- load_data(notebook_config, data_name, data_format): look up the
folder name (KeyError first), default the version to v1, resolve the
artifact path, raise FileNotFoundError when the file does not exist,
then dispatch on the format (pickle.load, pandas.read_csv, ValueError
otherwise). -/
def load_data (new_path : Option String) (notebook_config : List (String × PyObj)) (data_name : String) (data_format : String) (fs : FS) : Except PyError PyObj × FS :=
  match dictGet notebook_config "name" with
  | Except.error e => (Except.error e, fs)
  | Except.ok folder_name =>
    let config_version := dictGetD notebook_config "version" (PyObj.strPy "v1")
    match joinRoot new_path folder_name with
    | Except.error e => (Except.error e, fs)
    | Except.ok base =>
      let data_path := base ++ ["data"]
      let fname := pyToStr config_version ++ "_" ++ data_name ++ "." ++ data_format
      match lookupA fs.files (data_path, fname) with
      | Option.none => (Except.error (PyError.fileNotFoundError ("Data file not found: " ++ pathStr (data_path ++ [fname]))), fs)
      | some c =>
        if data_format = "pkl" then
          match c with
          | FileContent.pickled v => (Except.ok v, fs)
          | _ => (Except.error (PyError.valueError "unpickling error"), fs)
        else if data_format = "csv" then
          match c with
          | FileContent.csvFile v => (Except.ok v, fs)
          | _ => (Except.error (PyError.valueError "csv parse error"), fs)
        else
          (Except.error (PyError.valueError "Unsupported data format. Use pkl or csv."), fs)

/-- clear_data_and_figure(notebook_config, data, figure): early return
when both flags are false; otherwise look up the folder name (KeyError),
join the paths, and delete every file whose name starts with version_ in
the data directory and then in the figures directory, each skipped when
the directory does not exist.  Neither loop is guarded by its flag in
the source: the flags are consulted only by the early return.  The
source computes the prefix config_version + underscore inside the loops,
which raises TypeError for a non-string version; the model requires the
string eagerly after the join. -/
def clear_data_and_figure (new_path : Option String) (notebook_config : List (String × PyObj)) (data : Bool) (figure : Bool) (fs : FS) : Except PyError Unit × FS :=
  if !data && !figure then
    (Except.ok (), fs)
  else
    match dictGet notebook_config "name" with
    | Except.error e => (Except.error e, fs)
    | Except.ok folder_name =>
      let config_version := dictGetD notebook_config "version" (PyObj.strPy "v1")
      match joinRoot new_path folder_name with
      | Except.error e => (Except.error e, fs)
      | Except.ok base =>
        match config_version with
        | PyObj.strPy vs =>
          let pre := vs ++ "_"
          let data_path := base ++ ["data"]
          let fs1 := if data_path ∈ fs.dirs then clearDir fs data_path pre else fs
          let figures_path := base ++ ["figures"]
          let fs2 := if figures_path ∈ fs1.dirs then clearDir fs1 figures_path pre else fs1
          (Except.ok (), fs2)
        | _ => (Except.error PyError.typeError, fs)

@[simp] theorem files_makedirs (fs : FS) (p : List String) : (fs.makedirs p).files = fs.files := rfl

@[simp] theorem dirs_writeFile (fs : FS) (d : List String) (n : String) (c : FileContent) : (fs.writeFile d n c).dirs = fs.dirs := rfl

@[simp] theorem dirs_clearDir (fs : FS) (d : List String) (pre : String) : (clearDir fs d pre).dirs = fs.dirs := rfl

theorem lookupA_filter_pos (p : (List String × String) → Bool) (l : List ((List String × String) × FileContent)) (k : List String × String) (h : p k = true) :
    lookupA (l.filter (fun e => p e.1)) k = lookupA l k := by
  induction l with
  | nil => rfl
  | cons e rest ih =>
    by_cases hpe : p e.1 = true
    · by_cases hek : e.1 = k
      · simp [List.filter_cons, hpe, lookupA, hek, h]
      · simp [List.filter_cons, hpe, lookupA, hek, ih]
    · have hek : e.1 ≠ k := fun he => hpe (he ▸ h)
      simp [List.filter_cons, hpe, lookupA, hek, ih]

theorem lookupA_writeFile_self (fs : FS) (d : List String) (n : String) (c : FileContent) :
    lookupA (fs.writeFile d n c).files (d, n) = some c := by
  simp [FS.writeFile, lookupA]

theorem lookupA_writeFile_ne (fs : FS) (d : List String) (n : String) (c : FileContent) (k : List String × String) (h : k ≠ (d, n)) :
    lookupA (fs.writeFile d n c).files k = lookupA fs.files k := by
  have h2 : ¬((d, n) = k) := fun he => h he.symm
  simp only [FS.writeFile, lookupA, h2, if_false]
  exact lookupA_filter_pos (fun kk => !(decide (kk = (d, n)))) fs.files k (by simp [h])

theorem lookupA_clearDir_keep (fs : FS) (dd : List String) (pre : String) (k : List String × String)
    (h : (decide (k.1 = dd) && pystartswith k.2 pre) = false) :
    lookupA (clearDir fs dd pre).files k = lookupA fs.files k := by
  simpa [clearDir] using
    lookupA_filter_pos (fun kk => !(decide (kk.1 = dd) && pystartswith kk.2 pre)) fs.files k (by simp [h])

theorem mem_insertDir (ds : List (List String)) (d x : List String) :
    x ∈ insertDir ds d ↔ x ∈ ds ∨ x = d := by
  unfold insertDir
  split
  · rename_i hd
    constructor
    · exact Or.inl
    · rintro (hx | rfl)
      · exact hx
      · exact hd
  · simp [List.mem_append]

theorem mem_foldl_insertDir (l : List (List String)) (ds : List (List String)) (x : List String) :
    x ∈ l.foldl insertDir ds ↔ x ∈ ds ∨ x ∈ l := by
  induction l generalizing ds with
  | nil => simp
  | cons a t ih => simp [List.foldl_cons, ih, mem_insertDir, List.mem_cons, or_assoc]

theorem mem_makedirs (fs : FS) (p x : List String) :
    x ∈ (fs.makedirs p).dirs ↔ x ∈ fs.dirs ∨ x ∈ pathInits p :=
  mem_foldl_insertDir _ _ _

theorem isPrefixOf_v2_cons (t : List Char) :
    List.isPrefixOf ['v', '2', '_'] ('v' :: '1' :: '_' :: t) = false := by
  simp +decide [List.isPrefixOf]

theorem pystartswith_v1_build (a b : String) :
    pystartswith ("v1" ++ "_" ++ a ++ "." ++ b) "v2_" = false := by
  have h1 : ("v1" : String).data = ['v', '1'] := rfl
  have h2 : ("_" : String).data = ['_'] := rfl
  have h3 : ("." : String).data = ['.'] := rfl
  have h4 : ("v2_" : String).data = ['v', '2', '_'] := rfl
  simp only [pystartswith, String.data_append, h1, h2, h3, h4, List.cons_append, List.nil_append, List.append_assoc]
  exact isPrefixOf_v2_cons _

theorem pystartswith_v2_not_v1 (n : String) (h : pystartswith n "v2_" = true) :
    pystartswith n ("v1" ++ "_") = false := by
  have e : ("v1" ++ "_" : String) = "v1_" := by decide
  rw [e]
  unfold pystartswith at h ⊢
  rcases hd : n.data with _ | ⟨c1, _ | ⟨c2, t2⟩⟩ <;> rw [hd] at h
  · simp [List.isPrefixOf] at h
  · simp +decide [List.isPrefixOf] at h
  · simp only [List.isPrefixOf, Bool.and_eq_true, beq_iff_eq] at h
    obtain ⟨hv, h2, _⟩ := h
    subst hv
    subst h2
    simp +decide [List.isPrefixOf]

theorem ne_of_pystartswith (n m : String) (h1 : pystartswith n "v2_" = true) (h2 : pystartswith m "v2_" = false) :
    n ≠ m := by
  intro he
  rw [he, h2] at h1
  simp at h1

theorem save_data_keeps_v2 (np : Option String) (cfg : List (String × PyObj)) (x : PyObj) (dn dfmt : String) (fs : FS) (k : List String × String)
    (hv : dictGetD cfg "version" (PyObj.strPy "v1") = PyObj.strPy "v1")
    (hk : pystartswith k.2 "v2_" = true) :
    lookupA (save_data np cfg x dn dfmt fs).2.files k = lookupA fs.files k := by
  unfold save_data
  rcases hg : dictGet cfg "name" with e | fn
  · simp [hg]
  · rcases hj : joinRoot np fn with e | base
    · simp [hg, hj]
    · have hb : pystartswith ("v1" ++ "_" ++ dn ++ "." ++ dfmt) "v2_" = false := pystartswith_v1_build dn dfmt
      have hne : k ≠ (base ++ ["data"], "v1" ++ "_" ++ dn ++ "." ++ dfmt) := by
        intro he
        exact ne_of_pystartswith k.2 _ hk hb (by rw [he])
      have hfs1 : (if base ++ ["data"] ∈ fs.dirs then fs else fs.makedirs (base ++ ["data"])).files = fs.files := by
        split <;> rfl
      have key : ∀ (c : FileContent),
          lookupA ((if base ++ ["data"] ∈ fs.dirs then fs else fs.makedirs (base ++ ["data"])).writeFile
            (base ++ ["data"]) ("v1" ++ "_" ++ dn ++ "." ++ dfmt) c).files k = lookupA fs.files k := by
        intro c
        rw [lookupA_writeFile_ne _ _ _ c k hne, hfs1]
      simp only [hg, hj, hv, pyToStr]
      split
      · exact key _
      · split
        · split
          · exact key _
          · exact congrArg (fun l => lookupA l k) hfs1
        · exact congrArg (fun l => lookupA l k) hfs1

theorem save_figure_keeps_v2 (np : Option String) (cfg : List (String × PyObj)) (fig : Fig) (gn gf : String) (fs : FS) (k : List String × String)
    (hv : dictGetD cfg "version" (PyObj.strPy "v1") = PyObj.strPy "v1")
    (hk : pystartswith k.2 "v2_" = true) :
    lookupA (save_figure np cfg fig gn gf fs).2.files k = lookupA fs.files k := by
  unfold save_figure
  rcases hg : dictGet cfg "name" with e | fn
  · simp [hg]
  · rcases hj : joinRoot np fn with e | base
    · simp [hg, hj]
    · have hb : pystartswith ("v1" ++ "_" ++ gn ++ "." ++ gf) "v2_" = false := pystartswith_v1_build gn gf
      have hne : k ≠ (base ++ ["figures"], "v1" ++ "_" ++ gn ++ "." ++ gf) := by
        intro he
        exact ne_of_pystartswith k.2 _ hk hb (by rw [he])
      have hfs1 : (if base ++ ["figures"] ∈ fs.dirs then fs else fs.makedirs (base ++ ["figures"])).files = fs.files := by
        split <;> rfl
      simp only [hg, hj, hv, pyToStr]
      rw [lookupA_writeFile_ne _ _ _ _ k hne, hfs1]

theorem clear_keeps_v2 (np : Option String) (cfg : List (String × PyObj)) (b1 b2 : Bool) (fs : FS) (k : List String × String)
    (hv : dictGetD cfg "version" (PyObj.strPy "v1") = PyObj.strPy "v1")
    (hk : pystartswith k.2 "v2_" = true) :
    lookupA (clear_data_and_figure np cfg b1 b2 fs).2.files k = lookupA fs.files k := by
  unfold clear_data_and_figure
  by_cases hb : (!b1 && !b2) = true
  · simp [hb]
  · rcases hg : dictGet cfg "name" with e | fn
    · simp [hb, hg]
    · rcases hj : joinRoot np fn with e | base
      · simp [hb, hg, hj]
      · have hkeep : ∀ dd : List String, (decide (k.1 = dd) && pystartswith k.2 ("v1" ++ "_")) = false := by
          intro dd
          rw [pystartswith_v2_not_v1 k.2 hk]
          simp
        have step : ∀ (fs' : FS) (dd : List String),
            lookupA (if dd ∈ fs'.dirs then clearDir fs' dd ("v1" ++ "_") else fs').files k = lookupA fs'.files k := by
          intro fs' dd
          split
          · exact lookupA_clearDir_keep fs' dd _ k (hkeep dd)
          · rfl
        rw [if_neg hb]
        simp only [hg, hj, hv]
        rw [step, step]

def wCfg : List (String × PyObj) := [("name", PyObj.strPy "exp"), ("version", PyObj.strPy "v1")]

def noNameCfg : List (String × PyObj) := [("version", PyObj.strPy "v1")]

def emptyFS : FS := ⟨[], []⟩

def wFS : FS :=
  ⟨[["root"], ["root", "exp"], ["root", "exp", "data"], ["root", "exp", "figures"]],
   [((["root", "exp", "data"], "v2_a.pkl"), FileContent.pickled (PyObj.intPy 2))]⟩

def c1FS : FS :=
  ⟨[["root"], ["root", "exp"], ["root", "exp", "data"], ["root", "exp", "figures"]],
   [((["root", "exp", "data"], "v1_a.pkl"), FileContent.pickled (PyObj.intPy 1)),
    ((["root", "exp", "data"], "v2_a.pkl"), FileContent.pickled (PyObj.intPy 2)),
    ((["root", "exp", "figures"], "v1_f.png"), FileContent.figureFile ⟨"f"⟩ "png")]⟩

/-- Claim C1: on a folder holding data/v1_a.pkl, data/v2_a.pkl and
figures/v1_f.png, clear_data_and_figure with clear_data=True and
clear_figures=False deletes the v1-prefixed data file but ALSO deletes
figures/v1_f.png: the source checks the two flags only in the
both-false early return, so the figure-clearing loop runs even with
figure=False, contradicting the docstring of the function and the
claim.  This theorem evaluates the embedded code at the failing
input. -/
theorem c1_clear_ignores_figure_flag :
    clear_data_and_figure (some "root") wCfg true false c1FS =
      (Except.ok (),
       ⟨[["root"], ["root", "exp"], ["root", "exp", "data"], ["root", "exp", "figures"]],
        [((["root", "exp", "data"], "v2_a.pkl"), FileContent.pickled (PyObj.intPy 2))]⟩) := by
  rfl

/-- Claim C2, counterexample: with the root unset, load_configs raises
TypeError (from joining the None root), which is not the configuration
error the claim requires, and clear_data_and_figure with both flags
false returns successfully without any error at all. -/
theorem c2_unset_root_counterexample :
    (load_configs Option.none "exp" "v1" emptyFS).1 = Except.error PyError.typeError ∧
    PyError.typeError ≠ PyError.configurationError ∧
    clear_data_and_figure Option.none wCfg false false emptyFS = (Except.ok (), emptyFS) := by
  refine ⟨rfl, ?_, rfl⟩
  decide

/-- Claim C2, amended: when the root environment variable is unset
(new_path is None), every operation that reaches path resolution fails
with a TypeError raised by the first os.path.join on the None root, and
leaves the filesystem untouched; there is never a silent fallback to a
relative or empty root.  (An operation can still fail earlier with
KeyError on a config lacking the name key, and clear with both flags
false returns before resolving any path.) -/
theorem c2_unset_root_errors (f sfx : String) (doc : PyObj) (cfg : List (String × PyObj)) (fn : String)
    (fig : Fig) (gn gf : String) (x : PyObj) (dn dfmt lfmt : String) (b1 b2 : Bool) (fs : FS)
    (hname : lookupKV cfg "name" = some (PyObj.strPy fn)) (hflag : b1 = true ∨ b2 = true) :
    load_configs Option.none f sfx fs = (Except.error PyError.typeError, fs) ∧
    save_configs Option.none f doc sfx fs = (Except.error PyError.typeError, fs) ∧
    initialise_config Option.none f fs = (Except.error PyError.typeError, fs) ∧
    save_figure Option.none cfg fig gn gf fs = (Except.error PyError.typeError, fs) ∧
    save_data Option.none cfg x dn dfmt fs = (Except.error PyError.typeError, fs) ∧
    load_data Option.none cfg dn lfmt fs = (Except.error PyError.typeError, fs) ∧
    clear_data_and_figure Option.none cfg b1 b2 fs = (Except.error PyError.typeError, fs) := by
  refine ⟨rfl, rfl, rfl, ?_, ?_, ?_, ?_⟩
  · unfold save_figure
    simp [dictGet, hname, joinRoot]
  · unfold save_data
    simp [dictGet, hname, joinRoot]
  · unfold load_data
    simp [dictGet, hname, joinRoot]
  · unfold clear_data_and_figure
    rcases hflag with rfl | rfl <;> simp [dictGet, hname, joinRoot]

/-- Claim C2 witness: the amended theorem at a concrete input. -/
theorem c2_unset_root_errors_witness :
    load_configs Option.none "exp" "v1" wFS = (Except.error PyError.typeError, wFS) ∧
    save_configs Option.none "exp" (PyObj.dictPy []) "v1" wFS = (Except.error PyError.typeError, wFS) ∧
    initialise_config Option.none "exp" wFS = (Except.error PyError.typeError, wFS) ∧
    save_figure Option.none wCfg ⟨"f"⟩ "p" "png" wFS = (Except.error PyError.typeError, wFS) ∧
    save_data Option.none wCfg (PyObj.intPy 1) "a" "pkl" wFS = (Except.error PyError.typeError, wFS) ∧
    load_data Option.none wCfg "a" "pkl" wFS = (Except.error PyError.typeError, wFS) ∧
    clear_data_and_figure Option.none wCfg true false wFS = (Except.error PyError.typeError, wFS) :=
  c2_unset_root_errors "exp" "v1" (PyObj.dictPy []) wCfg "exp" ⟨"f"⟩ "p" "png" (PyObj.intPy 1) "a" "pkl" "pkl"
    true false wFS rfl (Or.inl rfl)

/-- Claim C3: an artifact operation made with version v1 (the notebook
config carries version "v1", or defaults to it) never creates, modifies
or deletes any file whose name is prefixed "v2_": the lookup of every
such file is unchanged by save_data, save_figure and
clear_data_and_figure, whatever their other arguments and whether they
succeed or raise. -/
theorem c3_version_isolation (np : Option String) (cfg : List (String × PyObj)) (x : PyObj) (dn dfmt : String)
    (fig : Fig) (gn gf : String) (b1 b2 : Bool) (fs : FS) (k : List String × String)
    (hv : dictGetD cfg "version" (PyObj.strPy "v1") = PyObj.strPy "v1")
    (hk : pystartswith k.2 "v2_" = true) :
    lookupA (save_data np cfg x dn dfmt fs).2.files k = lookupA fs.files k ∧
    lookupA (save_figure np cfg fig gn gf fs).2.files k = lookupA fs.files k ∧
    lookupA (clear_data_and_figure np cfg b1 b2 fs).2.files k = lookupA fs.files k :=
  ⟨save_data_keeps_v2 np cfg x dn dfmt fs k hv hk,
   save_figure_keeps_v2 np cfg fig gn gf fs k hv hk,
   clear_keeps_v2 np cfg b1 b2 fs k hv hk⟩

/-- Claim C3 witness: version isolation at a concrete folder holding
data/v2_a.pkl. -/
theorem c3_version_isolation_witness :
    lookupA (save_data (some "root") wCfg (PyObj.intPy 1) "a" "pkl" wFS).2.files (["root", "exp", "data"], "v2_a.pkl") =
      lookupA wFS.files (["root", "exp", "data"], "v2_a.pkl") ∧
    lookupA (save_figure (some "root") wCfg ⟨"f"⟩ "p" "png" wFS).2.files (["root", "exp", "data"], "v2_a.pkl") =
      lookupA wFS.files (["root", "exp", "data"], "v2_a.pkl") ∧
    lookupA (clear_data_and_figure (some "root") wCfg true true wFS).2.files (["root", "exp", "data"], "v2_a.pkl") =
      lookupA wFS.files (["root", "exp", "data"], "v2_a.pkl") :=
  c3_version_isolation (some "root") wCfg (PyObj.intPy 1) "a" "pkl" ⟨"f"⟩ "p" "png" true true wFS
    (["root", "exp", "data"], "v2_a.pkl") rfl rfl

/-- Claim C4: initialise_config is idempotent once a root is set: the
first call succeeds, and a second call on the resulting state succeeds
and returns that state unchanged, so the contents after two calls equal
the contents after one. -/
theorem c4_initialise_idempotent (root f : String) (fs : FS) :
    (initialise_config (some root) f fs).1 = Except.ok () ∧
    initialise_config (some root) f (initialise_config (some root) f fs).2 =
      (Except.ok (), (initialise_config (some root) f fs).2) := by
  unfold initialise_config
  by_cases hm : [root, f] ∈ fs.dirs
  · simp [hm]
  · have hmem : [root, f] ∈
        (((fs.makedirs [root, f]).makedirs [root, f, "data"]).makedirs [root, f, "figures"]).dirs := by
      simp [mem_makedirs, pathInits]
    simp [hm, hmem]

/-- Claim C5: config round-trip.  Saving any document (a mapping given
as its ordered key-value list) and loading it back with the same folder
name and version suffix succeeds and returns the identical document,
keys in the same insertion order (yaml.dump is called with
sort_keys=False and yaml.safe_load returns the stored mapping). -/
theorem c5_config_round_trip (r f sfx : String) (kvs : List (String × PyObj)) (fs : FS)
    (hdir : [r, f] ∈ fs.dirs) :
    (save_configs (some r) f (PyObj.dictPy kvs) sfx fs).1 = Except.ok () ∧
    load_configs (some r) f sfx (save_configs (some r) f (PyObj.dictPy kvs) sfx fs).2 =
      (Except.ok (PyObj.dictPy kvs), (save_configs (some r) f (PyObj.dictPy kvs) sfx fs).2) := by
  unfold save_configs load_configs
  simp [hdir, lookupA_writeFile_self]

/-- Claim C5 witness: the round trip at a concrete folder and document. -/
theorem c5_config_round_trip_witness :
    (save_configs (some "root") "exp" (PyObj.dictPy [("a", PyObj.intPy 1)]) "v1" wFS).1 = Except.ok () ∧
    load_configs (some "root") "exp" "v1" (save_configs (some "root") "exp" (PyObj.dictPy [("a", PyObj.intPy 1)]) "v1" wFS).2 =
      (Except.ok (PyObj.dictPy [("a", PyObj.intPy 1)]),
       (save_configs (some "root") "exp" (PyObj.dictPy [("a", PyObj.intPy 1)]) "v1" wFS).2) :=
  c5_config_round_trip "root" "exp" "v1" [("a", PyObj.intPy 1)] wFS (by decide)

/-- Claim C6: binary artifact round-trip.  For any object x, any
notebook config with a string name and any artifact name, save_data
with format pkl succeeds and load_data with the same config, name and
format returns x (pickle.dump writes the object and pickle.load reads
it back from the same resolved path). -/
theorem c6_pkl_round_trip (r : String) (cfg : List (String × PyObj)) (fn : String) (x : PyObj) (dn : String) (fs : FS)
    (hname : lookupKV cfg "name" = some (PyObj.strPy fn)) :
    (save_data (some r) cfg x dn "pkl" fs).1 = Except.ok () ∧
    load_data (some r) cfg dn "pkl" (save_data (some r) cfg x dn "pkl" fs).2 =
      (Except.ok x, (save_data (some r) cfg x dn "pkl" fs).2) := by
  unfold save_data load_data
  simp +decide only [dictGet, hname, joinRoot, if_true, if_false]
  refine ⟨trivial, ?_⟩
  rw [lookupA_writeFile_self]

/-- Claim C6 witness: the pkl round trip at a concrete input. -/
theorem c6_pkl_round_trip_witness :
    (save_data (some "root") wCfg (PyObj.listPy [PyObj.intPy 1, PyObj.intPy 2]) "res" "pkl" wFS).1 = Except.ok () ∧
    load_data (some "root") wCfg "res" "pkl" (save_data (some "root") wCfg (PyObj.listPy [PyObj.intPy 1, PyObj.intPy 2]) "res" "pkl" wFS).2 =
      (Except.ok (PyObj.listPy [PyObj.intPy 1, PyObj.intPy 2]),
       (save_data (some "root") wCfg (PyObj.listPy [PyObj.intPy 1, PyObj.intPy 2]) "res" "pkl" wFS).2) :=
  c6_pkl_round_trip "root" wCfg "exp" (PyObj.listPy [PyObj.intPy 1, PyObj.intPy 2]) "res" wFS rfl

/-- Claim C7: save_data with a format that is neither pkl nor csv fails
with the unsupported-format ValueError and creates no file: the file
map is exactly unchanged (only the data directory may have been
created). -/
theorem c7_unsupported_format (r : String) (cfg : List (String × PyObj)) (fn : String) (x : PyObj) (dn fmt : String) (fs : FS)
    (hname : lookupKV cfg "name" = some (PyObj.strPy fn)) (h1 : fmt ≠ "pkl") (h2 : fmt ≠ "csv") :
    (save_data (some r) cfg x dn fmt fs).1 =
      Except.error (PyError.valueError "Unsupported data format. Use pkl or csv.") ∧
    (save_data (some r) cfg x dn fmt fs).2.files = fs.files := by
  unfold save_data
  simp only [dictGet, hname, joinRoot]
  rw [if_neg h1, if_neg h2]
  refine ⟨rfl, ?_⟩
  split <;> rfl

/-- Claim C7 witness: save_data with format json at a concrete input. -/
theorem c7_unsupported_format_witness :
    (save_data (some "root") wCfg (PyObj.intPy 1) "a" "json" wFS).1 =
      Except.error (PyError.valueError "Unsupported data format. Use pkl or csv.") ∧
    (save_data (some "root") wCfg (PyObj.intPy 1) "a" "json" wFS).2.files = wFS.files :=
  c7_unsupported_format "root" wCfg "exp" (PyObj.intPy 1) "a" "json" wFS rfl (by decide) (by decide)

/-- Claim C8: load_data on a resolved artifact path that does not exist
fails with FileNotFoundError and leaves the filesystem unchanged. -/
theorem c8_load_missing_not_found (r : String) (cfg : List (String × PyObj)) (fn dn fmt : String) (fs : FS)
    (hname : lookupKV cfg "name" = some (PyObj.strPy fn))
    (habs : lookupA fs.files ([r, fn] ++ ["data"],
      pyToStr (dictGetD cfg "version" (PyObj.strPy "v1")) ++ "_" ++ dn ++ "." ++ fmt) = Option.none) :
    ∃ m, load_data (some r) cfg dn fmt fs = (Except.error (PyError.fileNotFoundError m), fs) := by
  unfold load_data
  simp only [dictGet, hname, joinRoot, habs]
  exact ⟨_, rfl⟩

/-- Claim C8 witness: load_data on a missing artifact at a concrete
input. -/
theorem c8_load_missing_not_found_witness :
    ∃ m, load_data (some "root") wCfg "ghost" "pkl" wFS = (Except.error (PyError.fileNotFoundError m), wFS) :=
  c8_load_missing_not_found "root" wCfg "exp" "ghost" "pkl" wFS rfl rfl

/-- Claim C9: every artifact operation called with a notebook config
lacking the name key (clear with at least one flag true) raises
KeyError "name" and performs no filesystem change: the lookup of the
folder name is the first statement of each operation, before any path
is joined or any directory is read, created or cleared. -/
theorem c9_missing_name_key_error (np : Option String) (cfg : List (String × PyObj)) (fig : Fig) (gn gf : String)
    (x : PyObj) (dn dfmt lfmt : String) (b1 b2 : Bool) (fs : FS)
    (hmiss : lookupKV cfg "name" = Option.none) (hflag : b1 = true ∨ b2 = true) :
    save_figure np cfg fig gn gf fs = (Except.error (PyError.keyError "name"), fs) ∧
    save_data np cfg x dn dfmt fs = (Except.error (PyError.keyError "name"), fs) ∧
    load_data np cfg dn lfmt fs = (Except.error (PyError.keyError "name"), fs) ∧
    clear_data_and_figure np cfg b1 b2 fs = (Except.error (PyError.keyError "name"), fs) := by
  unfold save_figure save_data load_data clear_data_and_figure
  refine ⟨?_, ?_, ?_, ?_⟩
  · simp [dictGet, hmiss]
  · simp [dictGet, hmiss]
  · simp [dictGet, hmiss]
  · rcases hflag with rfl | rfl <;> simp [dictGet, hmiss]

/-- Claim C9 witness: the four operations on a config without a name
key, at a concrete input. -/
theorem c9_missing_name_key_error_witness :
    save_figure (some "root") noNameCfg ⟨"f"⟩ "p" "png" wFS = (Except.error (PyError.keyError "name"), wFS) ∧
    save_data (some "root") noNameCfg (PyObj.intPy 1) "a" "pkl" wFS = (Except.error (PyError.keyError "name"), wFS) ∧
    load_data (some "root") noNameCfg "a" "pkl" wFS = (Except.error (PyError.keyError "name"), wFS) ∧
    clear_data_and_figure (some "root") noNameCfg true false wFS = (Except.error (PyError.keyError "name"), wFS) :=
  c9_missing_name_key_error (some "root") noNameCfg ⟨"f"⟩ "p" "png" (PyObj.intPy 1) "a" "pkl" "pkl"
    true false wFS rfl (Or.inl rfl)

/-- Claim C10: a save_data call that fails on the format dispatch
(unsupported format, or csv on data without to_csv) still leaves the
data directory created: the makedirs happens before the dispatch and is
not rolled back by the raise. -/
theorem c10_data_dir_created_on_error (r : String) (cfg : List (String × PyObj)) (fn : String) (x : PyObj) (dn fmt : String) (fs : FS)
    (hname : lookupKV cfg "name" = some (PyObj.strPy fn))
    (herr : (fmt ≠ "pkl" ∧ fmt ≠ "csv") ∨ (fmt = "csv" ∧ hasToCsv x = false)) :
    (∃ m, (save_data (some r) cfg x dn fmt fs).1 = Except.error (PyError.valueError m)) ∧
    [r, fn, "data"] ∈ (save_data (some r) cfg x dn fmt fs).2.dirs := by
  unfold save_data
  have hmem : [r, fn, "data"] ∈ (if [r, fn, "data"] ∈ fs.dirs then fs else fs.makedirs [r, fn, "data"]).dirs := by
    split
    · assumption
    · simp [mem_makedirs, pathInits]
  rcases herr with ⟨h1, h2⟩ | ⟨rfl, ht⟩
  · simp only [dictGet, hname, joinRoot]
    rw [if_neg h1, if_neg h2]
    exact ⟨⟨_, rfl⟩, hmem⟩
  · simp +decide only [dictGet, hname, joinRoot, ht, if_true, if_false]
    exact ⟨⟨_, rfl⟩, hmem⟩

/-- Claim C10 witness: the failed json save still creates the data
directory of a fresh folder. -/
theorem c10_data_dir_created_on_error_witness :
    (∃ m, (save_data (some "root") wCfg (PyObj.intPy 1) "a" "json" emptyFS).1 = Except.error (PyError.valueError m)) ∧
    ["root", "exp", "data"] ∈ (save_data (some "root") wCfg (PyObj.intPy 1) "a" "json" emptyFS).2.dirs :=
  c10_data_dir_created_on_error "root" wCfg "exp" (PyObj.intPy 1) "a" "json" emptyFS rfl
    (Or.inl ⟨by decide, by decide⟩)
